import Mathlib

/-!
Shallow embedding of `src/spotify_to_tidal/sync.py` (BryScordia/spotify_to_tidal).

Python `dict`-shaped records are modelled as Lean structures carrying exactly the
fields the code reads.  Python strings are Lean `String`s (the code only ever
lower-cases, trims, splits and tests substring containment, all of which are
modelled exactly on ASCII data; the `unicodedata` NFD normalization followed by
an ASCII re-encode is an external library call modelled as the ASCII filter it
amounts to on ASCII input).  The duration comparison divides milliseconds by
1000 with true division; it is embedded as the equivalent integer comparison
scaled by 1000, with the equivalence to the `ℚ` formulation proved as a
theorem.  Falsy tests on Python values
(`if not spotify_track['id']`, `if tidal_id`) are modelled by explicit
truthiness functions.
-/

set_option maxRecDepth 100000

/-- Spotify album sub-record: the code reads `album['name']` and
`album['artists'][i]['name']`. -/
structure SpotifyAlbum where
  name : String
  artists : List String
  deriving DecidableEq, Repr

/-- Source-track record: the fields of the Spotify track dict that `sync.py`
reads.  `id` is `Option String` (`None` possible); `isrc` models the optional
`external_ids["isrc"]` entry; `album` is optional (the code guards
`'album' in spotify_track`). -/
structure SpotifyTrack where
  id : Option String
  name : String
  artists : List String
  duration_ms : Int
  album : Option SpotifyAlbum
  track_number : Nat
  isrc : Option String
  deriving DecidableEq, Repr

/-- Catalog-track record: the fields of `tidalapi.Track` that `sync.py` reads. -/
structure TidalTrack where
  id : Int
  name : String
  version : Option String
  artists : List String
  duration : Int
  isrc : Option String
  available : Bool
  deriving DecidableEq, Repr

/-- Catalog-album record: the fields of `tidalapi.Album` that `sync.py` reads;
`tracks_list` models the `album.tracks()` fetch. -/
structure Album where
  name : String
  artists : List String
  num_tracks : Nat
  tracks_list : List TidalTrack
  deriving DecidableEq, Repr

/-- Python truthiness of the `id` field: `None` and `""` are falsy. -/
def truthy_id : Option String → Bool
  | none => false
  | some s => s ≠ ""

/-- Python truthiness of an optional int (`track_match_cache.get` result):
`None` and `0` are falsy. -/
def truthy_int_opt : Option Int → Bool
  | none => false
  | some n => n ≠ 0

/-- Substring test at the head: `startsWithChars p s` iff `p` is an initial
segment of `s`. -/
def startsWithChars : List Char → List Char → Bool
  | [], _ => true
  | _ :: _, [] => false
  | c :: cs, d :: ds => c == d && startsWithChars cs ds

/-- `hasInfixChars p s` iff `p` occurs contiguously inside `s`. -/
def hasInfixChars (p : List Char) : List Char → Bool
  | [] => startsWithChars p []
  | d :: ds => startsWithChars p (d :: ds) || hasInfixChars p ds

/-- Python `pat in s` on strings. -/
def str_in (pat s : String) : Bool :=
  hasInfixChars pat.data s.data

/-- `normalize(s)`: NFD-normalize then `encode('ascii','ignore')`.
The NFD decomposition is an external library call; on ASCII input it is the
identity, so the composite is modelled as dropping all non-ASCII characters. -/
def normalize_str (s : String) : String :=
  String.mk (s.data.filter (fun c => c.toNat ≤ 127))

/-- Python `s.lower()` (ASCII case folding, like `Char.toLower`). -/
def py_lower (s : String) : String :=
  String.mk (s.data.map Char.toLower)

/-- Python `s.strip()`: drop whitespace from both ends. -/
def py_strip (s : String) : String :=
  String.mk (((s.data.dropWhile Char.isWhitespace).reverse.dropWhile Char.isWhitespace).reverse)

/-- Python `s.split(sep)` for a non-empty separator, scanning left to right
and cutting at each occurrence.  The fuel argument (instantiated with the
length of the scanned list, an upper bound on the steps) makes the recursion
structural. -/
def py_split_fuel (sep : List Char) : Nat → List Char → List Char → List (List Char)
  | 0, rest, acc => [acc.reverse ++ rest]
  | _ + 1, [], acc => [acc.reverse]
  | fuel + 1, c :: cs, acc =>
    if startsWithChars sep (c :: cs) then
      acc.reverse :: py_split_fuel sep fuel (cs.drop (sep.length - 1)) []
    else py_split_fuel sep fuel cs (c :: acc)

/-- Python `s.split(sep)`. -/
def py_split (s sep : String) : List String :=
  (py_split_fuel sep.data s.data.length s.data []).map String.mk

/-- `simple(input_string)`: only take the first part of the string before any
hyphen or bracket, i.e.
`input_string.split('-')[0].strip().split('(')[0].strip().split('[')[0].strip()`. -/
def simple (input_string : String) : String :=
  let s1 := py_strip ((py_split input_string "-").headD "")
  let s2 := py_strip ((py_split s1 "(").headD "")
  py_strip ((py_split s2 "[").headD "")

/-- `isrc_match(tidal_track, spotify_track)`: if `"isrc"` is a key of
`spotify_track["external_ids"]`, compare it with `tidal_track.isrc`, else `False`. -/
def isrc_match (tidal_track : TidalTrack) (spotify_track : SpotifyTrack) : Bool :=
  match spotify_track.isrc with
  | some code => tidal_track.isrc == some code
  | none => false

/-- `duration_match(tidal_track, spotify_track, tolerance=2)`:
`abs(tidal_track.duration - spotify_track['duration_ms']/1000) < tolerance`
(all call sites use the default tolerance of 2 seconds).
The comparison is stated over integers, scaled by the positive
denominator 1000, to keep it kernel-computable; the theorem
`duration_match_iff_rat` below proves it equal to the source's true-division
formulation over `ℚ`. -/
def duration_match (tidal_track : TidalTrack) (spotify_track : SpotifyTrack) : Bool :=
  decide (|tidal_track.duration * 1000 - spotify_track.duration_ms| < 2 * 1000)

/-- The inner `exclusion_rule(pattern, tidal_track, spotify_track)` of
`name_match`: presence of the pattern in the Spotify title must agree with its
presence in the Tidal title-or-version. -/
def exclusion_rule (pattern : String) (tidal_track : TidalTrack) (spotify_track : SpotifyTrack) : Bool :=
  let spotify_has_pattern := str_in pattern (py_lower spotify_track.name)
  let tidal_has_pattern := str_in pattern (py_lower tidal_track.name) ||
    (match tidal_track.version with
     | some v => str_in pattern (py_lower v)
     | none => false)
  spotify_has_pattern != tidal_has_pattern

/-- `name_match(tidal_track, spotify_track)`: three exclusion rules, then the
simplified Spotify title (also stripped of a `feat.` suffix) must be a
substring of the Tidal title, raw or ASCII-normalized. -/
def name_match (tidal_track : TidalTrack) (spotify_track : SpotifyTrack) : Bool :=
  if exclusion_rule "instrumental" tidal_track spotify_track then false
  else if exclusion_rule "acapella" tidal_track spotify_track then false
  else if exclusion_rule "remix" tidal_track spotify_track then false
  else
    let simple_spotify_track :=
      py_strip ((py_split (simple (py_lower spotify_track.name)) "feat.").headD "")
    str_in simple_spotify_track (py_lower tidal_track.name) ||
      str_in (normalize_str simple_spotify_track) (normalize_str (py_lower tidal_track.name))

/-- `split_artist_name(artist)`: split on `&`, else on `,`, else singleton. -/
def split_artist_name (artist : String) : List String :=
  if artist.data.contains '&' then py_split artist "&"
  else if artist.data.contains ',' then py_split artist ","
  else [artist]

/-- `get_tidal_artists(tidal, do_normalize)`: split and simplify every artist
name (the Python builds a set; a list compared by membership is equivalent). -/
def get_tidal_artists (artists : List String) (do_normalize : Bool) : List String :=
  ((artists.map (fun a => if do_normalize then normalize_str a else a)).flatMap
      split_artist_name).map (fun x => simple (py_lower (py_strip x)))

/-- `get_spotify_artists(spotify, do_normalize)`: identical computation on the
Spotify artist names. -/
def get_spotify_artists (artists : List String) (do_normalize : Bool) : List String :=
  ((artists.map (fun a => if do_normalize then normalize_str a else a)).flatMap
      split_artist_name).map (fun x => simple (py_lower (py_strip x)))

/-- `artist_match(tidal, spotify)`: the artist-name sets must intersect,
un-normalized or normalized. -/
def artist_match (tidal_artists spotify_artists : List String) : Bool :=
  (get_tidal_artists tidal_artists false).any
      (fun x => (get_spotify_artists spotify_artists false).contains x) ||
    (get_tidal_artists tidal_artists true).any
      (fun x => (get_spotify_artists spotify_artists true).contains x)

/-- `match(tidal_track, spotify_track)` (named `match_tracks` because `match`
and `matches` are reserved in Lean): falsy-id guard, then
`isrc_match or (duration_match and name_match and artist_match)`. -/
def match_tracks (tidal_track : TidalTrack) (spotify_track : SpotifyTrack) : Bool :=
  if !truthy_id spotify_track.id then false
  else
    isrc_match tidal_track spotify_track ||
      (duration_match tidal_track spotify_track &&
        name_match tidal_track spotify_track &&
        artist_match tidal_track.artists spotify_track.artists)

/-- Modelled from the spec: the cache module (`.cache`, imported by `sync.py`)
is not part of the given sources.  Per spec §4.3 the Match Cache and Failure
Cache are two independent key-value stores keyed by the source-track id, the
Match Cache holding at most one active record per source id.  They are
modelled as one state holding an association list of match records (newest
first, insertion overwrites) and a list of failed source ids. -/
structure Caches where
  match_records : List (Option String × Int)
  failure_records : List (Option String)
  deriving DecidableEq, Repr

/-- Modelled from the spec: `track_match_cache.insert((sourceId, catalogId))`,
keeping at most one record per source id. -/
def cache_insert (c : Caches) (pair : Option String × Int) : Caches :=
  { c with match_records := pair :: c.match_records.filter (fun p => p.1 ≠ pair.1) }

/-- First-entry lookup in an association list (the newest record wins, like a
Python dict that is rewritten on insert). -/
def lookup_records : List (Option String × Int) → Option String → Option Int
  | [], _ => none
  | p :: rest, k => if p.1 = k then some p.2 else lookup_records rest k

/-- Modelled from the spec: `track_match_cache.get(sourceId)` returns the
catalog id or `None`. -/
def cache_get (c : Caches) (sourceId : Option String) : Option Int :=
  lookup_records c.match_records sourceId

/-- Modelled from the spec: `failure_cache.cache_match_failure(sourceId)`. -/
def cache_match_failure (c : Caches) (sourceId : Option String) : Caches :=
  if sourceId ∈ c.failure_records then c
  else { c with failure_records := sourceId :: c.failure_records }

/-- Modelled from the spec: `failure_cache.has_match_failure(sourceId)`. -/
def has_match_failure (c : Caches) (sourceId : Option String) : Bool :=
  decide (sourceId ∈ c.failure_records)

/-- Modelled from the spec: `failure_cache.remove_match_failure(sourceId)`. -/
def remove_match_failure (c : Caches) (sourceId : Option String) : Caches :=
  { c with failure_records := c.failure_records.filter (fun x => x ≠ sourceId) }

/-- The external Tidal session: `tidal_session.search(query, models=[Album])`
and `tidal_session.search(query, models=[Track])` are black-box collaborators
returning ranked candidates, and `similarity` models
`difflib.SequenceMatcher(None, a, b).ratio()` (an external library function). -/
structure Session where
  search_albums : String → List Album
  search_tracks : String → List TidalTrack
  similarity : String → String → ℚ

/-- `test_album_similarity(spotify_album, tidal_album, threshold=0.6)` (the one
call site uses the default threshold). -/
def test_album_similarity (sess : Session) (spotify_album : SpotifyAlbum) (tidal_album : Album) : Bool :=
  decide (sess.similarity (simple spotify_album.name) (simple tidal_album.name) ≥ 0.6) &&
    artist_match tidal_album.artists spotify_album.artists

/-- Python `album_tracks[track_number - 1]`: with `track_number = 0` the index
is `-1`, i.e. the last element; out-of-range raises `IndexError`. -/
def py_track_index (album_tracks : List TidalTrack) (track_number : Nat) : Option TidalTrack :=
  if track_number = 0 then album_tracks.getLast? else album_tracks[track_number - 1]?

/-- The `for album in album_result['albums']` loop of
`_search_for_track_in_album`, threading the caches (the only cache mutation is
`failure_cache.remove_match_failure` right before a successful return).
`Except` carries the uncaught Python exceptions: the `assert` on inconsistent
album metadata and an out-of-range track index. -/
def search_album_loop (sess : Session) (spotify_track : SpotifyTrack) (album0 : SpotifyAlbum)
    (c : Caches) : List Album → Except String (Option TidalTrack × Caches)
  | [] => Except.ok (none, c)
  | album :: rest =>
    if album.num_tracks ≥ spotify_track.track_number &&
        test_album_similarity sess album0 album then
      if album.tracks_list.length < spotify_track.track_number then
        if album.tracks_list.length == album.num_tracks then Except.error "AssertionError"
        else search_album_loop sess spotify_track album0 c rest
      else
        match py_track_index album.tracks_list spotify_track.track_number with
        | none => Except.error "IndexError"
        | some track =>
          if match_tracks track spotify_track then
            Except.ok (some track, remove_match_failure c spotify_track.id)
          else search_album_loop sess spotify_track album0 c rest
    else search_album_loop sess spotify_track album0 c rest

/-- `_search_for_track_in_album()`: guarded album-scoped search (stage 1). -/
def search_for_track_in_album (sess : Session) (spotify_track : SpotifyTrack)
    (c : Caches) : Except String (Option TidalTrack × Caches) :=
  match spotify_track.album with
  | none => Except.ok (none, c)
  | some album0 =>
    match album0.artists with
    | [] => Except.ok (none, c)
    | album_artist0 :: _ =>
      let query := simple album0.name ++ " " ++ simple album_artist0
      search_album_loop sess spotify_track album0 c (sess.search_albums query)

/-- The `for track in ...['tracks']` loop of `_search_for_standalone_track`. -/
def search_track_loop (spotify_track : SpotifyTrack) (c : Caches) :
    List TidalTrack → Option TidalTrack × Caches
  | [] => (none, c)
  | track :: rest =>
    if match_tracks track spotify_track then
      (some track, remove_match_failure c spotify_track.id)
    else search_track_loop spotify_track c rest

/-- `_search_for_standalone_track()` (stage 2); `spotify_track['artists'][0]`
raises `IndexError` on an empty artist list. -/
def search_for_standalone_track (sess : Session) (spotify_track : SpotifyTrack)
    (c : Caches) : Except String (Option TidalTrack × Caches) :=
  match spotify_track.artists with
  | [] => Except.error "IndexError"
  | artist0 :: _ =>
    let query := simple spotify_track.name ++ " " ++ simple artist0
    Except.ok (search_track_loop spotify_track c (sess.search_tracks query))

/-- `tidal_search(spotify_track, rate_limiter, tidal_session)`: stage 1, then
stage 2, caching a failure iff neither stage produced a match.  The rate
limiter only paces execution and is irrelevant to the returned value. -/
def tidal_search (sess : Session) (spotify_track : SpotifyTrack) (c : Caches) :
    Except String (Option TidalTrack × Caches) :=
  match search_for_track_in_album sess spotify_track c with
  | Except.error e => Except.error e
  | Except.ok (some track, c₁) => Except.ok (some track, c₁)
  | Except.ok (none, c₁) =>
    match search_for_standalone_track sess spotify_track c₁ with
    | Except.error e => Except.error e
    | Except.ok (some track, c₂) => Except.ok (some track, c₂)
    | Except.ok (none, c₂) => Except.ok (none, cache_match_failure c₂ spotify_track.id)

/-- `_populate_one_track_from_tidal(spotify_track ...)` closure of
`populate_track_match_cache`: scan the working Spotify list for the first
track the (available) Tidal track matches, record the pair and pop that
Spotify track. -/
def populate_one_track_from_tidal (tidal_track : TidalTrack) :
    List SpotifyTrack → Caches → List SpotifyTrack × Caches
  | [], c => ([], c)
  | spotify_track :: rest, c =>
    if tidal_track.available && match_tracks tidal_track spotify_track then
      (rest, cache_insert c (spotify_track.id, tidal_track.id))
    else
      let r := populate_one_track_from_tidal tidal_track rest c
      (spotify_track :: r.1, r.2)

/-- `_populate_one_track_from_spotify(spotify_track)`: scan the working Tidal
list for the first available track matching the Spotify track, record the pair
and pop that Tidal track. -/
def populate_one_track_from_spotify (spotify_track : SpotifyTrack) :
    List TidalTrack → Caches → List TidalTrack × Caches
  | [], c => ([], c)
  | tidal_track :: rest, c =>
    if tidal_track.available && match_tracks tidal_track spotify_track then
      (rest, cache_insert c (spotify_track.id, tidal_track.id))
    else
      let r := populate_one_track_from_spotify spotify_track rest c
      (tidal_track :: r.1, r.2)

/-- First pass of `populate_track_match_cache`:
`for track in tidal_tracks: _populate_one_track_from_tidal(track)` — consumes
matched Spotify tracks, leaves the Tidal list untouched. -/
def populate_pass_tidal : List TidalTrack → List SpotifyTrack → Caches →
    List SpotifyTrack × Caches
  | [], spotify_tracks, c => (spotify_tracks, c)
  | t :: ts, spotify_tracks, c =>
    let r := populate_one_track_from_tidal t spotify_tracks c
    populate_pass_tidal ts r.1 r.2

/-- Second pass of `populate_track_match_cache`:
`for track in spotify_tracks: _populate_one_track_from_spotify(track)` —
consumes matched Tidal tracks from the (still full) Tidal working list. -/
def populate_pass_spotify : List SpotifyTrack → List TidalTrack → Caches → Caches
  | [], _, c => c
  | s :: ss, tidal_tracks, c =>
    let r := populate_one_track_from_spotify s tidal_tracks c
    populate_pass_spotify ss r.1 r.2

/-- `populate_track_match_cache(spotify_tracks_, tidal_tracks_)`: greedy
two-pass reconciliation, Tidal-list-first then the unmatched Spotify tracks
against the full Tidal working copy (the first pass pops only Spotify
tracks, so the second pass sees every Tidal track again — this is what lets
distinct Spotify ids map to one Tidal id). -/
def populate_track_match_cache (spotify_tracks : List SpotifyTrack)
    (tidal_tracks : List TidalTrack) (c : Caches) : Caches :=
  let r := populate_pass_tidal tidal_tracks spotify_tracks c
  populate_pass_spotify r.1 tidal_tracks r.2

/-- `get_new_spotify_tracks(spotify_tracks, old_tidal_tracks)`: pre-populate
the cache, then keep the tracks with a truthy id, no (truthy) cached match and
no cached failure.  Returns the kept tracks and the updated caches. -/
def get_new_spotify_tracks (spotify_tracks : List SpotifyTrack)
    (old_tidal_tracks : List TidalTrack) (c : Caches) : List SpotifyTrack × Caches :=
  let c₁ := populate_track_match_cache spotify_tracks old_tidal_tracks c
  (spotify_tracks.filter (fun s =>
      truthy_id s.id && !truthy_int_opt (cache_get c₁ s.id) && !has_match_failure c₁ s.id),
   c₁)

/-- The worker loop of `search_new_tracks_on_tidal`: run `tidal_search` for
each new track.  The Python gathers these concurrently; each search touches
only its own track's failure-cache key and the result list is indexed by input
position, so the sequential threading below observes the same values. -/
def run_searches (sess : Session) (c : Caches) :
    List SpotifyTrack → Except String (List (Option TidalTrack) × Caches)
  | [] => Except.ok ([], c)
  | s :: rest =>
    match tidal_search sess s c with
    | Except.error e => Except.error e
    | Except.ok (r, c₁) =>
      match run_searches sess c₁ rest with
      | Except.error e => Except.error e
      | Except.ok (rs, c₂) => Except.ok (r :: rs, c₂)

/-- The cache-update loop after the gather in `search_new_tracks_on_tidal`:
`track_match_cache.insert((spotify_track['id'], search_results[idx].id))` for
every found result. -/
def cache_search_results (c : Caches) :
    List (SpotifyTrack × Option TidalTrack) → Caches
  | [] => c
  | (s, some t) :: rest => cache_search_results (cache_insert c (s.id, t.id)) rest
  | (_, none) :: rest => cache_search_results c rest

/-- `search_new_tracks_on_tidal(new_spotify_tracks, ...)`: search every new
track, then record the found matches in the match cache. -/
def search_new_tracks_on_tidal (sess : Session) (new_spotify_tracks : List SpotifyTrack)
    (c : Caches) : Except String (List (Option TidalTrack) × Caches) :=
  match run_searches sess c new_spotify_tracks with
  | Except.error e => Except.error e
  | Except.ok (results, c₁) =>
    Except.ok (results, cache_search_results c₁ (new_spotify_tracks.zip results))

/-- The mutation `update_tidal_playlist` issues against the target. -/
inductive PlaylistAction where
  | noop
  | append (track_ids : List Int)
  | replace (track_ids : List Int)
  deriving DecidableEq, Repr

/-- The decision core of `update_tidal_playlist` on the two id sequences:
no-op on equality, append of the suffix when the old ids are a prefix of the
new ids (`new_tidal_track_ids[:len(old_tidal_track_ids)] == old_tidal_track_ids`),
full replace otherwise. -/
def playlist_diff_action (old_ids new_ids : List Int) : PlaylistAction :=
  if new_ids = old_ids then PlaylistAction.noop
  else if new_ids.take old_ids.length = old_ids then
    PlaylistAction.append (new_ids.drop old_ids.length)
  else PlaylistAction.replace new_ids

/-- `update_tidal_playlist(old_tidal_tracks, new_tidal_tracks, ...)`:
`old_tidal_track_ids = [t.id for t in old_tidal_tracks]`,
`new_tidal_track_ids = [t.id for t in new_tidal_tracks if t]`, then the diff. -/
def update_tidal_playlist (old_tidal_tracks : List TidalTrack)
    (new_tidal_tracks : List (Option TidalTrack)) : PlaylistAction :=
  let old_tidal_track_ids := old_tidal_tracks.map (fun t => t.id)
  let new_tidal_track_ids := (new_tidal_tracks.reduceOption).map (fun t => t.id)
  playlist_diff_action old_tidal_track_ids new_tidal_track_ids

/-- `sync_tracks(spotify_tracks, old_tidal_tracks, ...)`: compute the new
tracks, return early when there are none, else search them on Tidal and hand
the search results (and only those) to `update_tidal_playlist`.  The result is
the issued playlist action (`none` on the early return) and the final caches. -/
def sync_tracks (sess : Session) (spotify_tracks : List SpotifyTrack)
    (old_tidal_tracks : List TidalTrack) (c : Caches) :
    Except String (Option PlaylistAction × Caches) :=
  let r := get_new_spotify_tracks spotify_tracks old_tidal_tracks c
  if r.1.isEmpty then Except.ok (none, r.2)
  else
    match search_new_tracks_on_tidal sess r.1 r.2 with
    | Except.error e => Except.error e
    | Except.ok (new_tidal_tracks, c₂) =>
      Except.ok (some (update_tidal_playlist old_tidal_tracks new_tidal_tracks), c₂)

/-- The loop of `get_tracks_for_new_tidal_playlist`, carrying the `seen_tracks`
set (a list compared by membership) and also returning the duplicate report:
the Python prints one line naming the skipped track; the model collects the
skipped tracks' names.  `if tidal_id:` is Python truthiness, so a cached id of
`0` is skipped like a missing match. -/
def get_tracks_for_new_tidal_playlist_aux (c : Caches) (seen_tracks : List Int) :
    List SpotifyTrack → List Int × List String
  | [] => ([], [])
  | spotify_track :: rest =>
    if !truthy_id spotify_track.id then
      get_tracks_for_new_tidal_playlist_aux c seen_tracks rest
    else
      match cache_get c spotify_track.id with
      | none => get_tracks_for_new_tidal_playlist_aux c seen_tracks rest
      | some tidal_id =>
        if tidal_id = 0 then get_tracks_for_new_tidal_playlist_aux c seen_tracks rest
        else if tidal_id ∈ seen_tracks then
          let r := get_tracks_for_new_tidal_playlist_aux c seen_tracks rest
          (r.1, spotify_track.name :: r.2)
        else
          let r := get_tracks_for_new_tidal_playlist_aux c (tidal_id :: seen_tracks) rest
          (tidal_id :: r.1, r.2)

/-- `get_tracks_for_new_tidal_playlist(spotify_tracks)`: the ordered Tidal id
list for the Spotify tracks, ignoring duplicates, plus the duplicate report. -/
def get_tracks_for_new_tidal_playlist (c : Caches) (spotify_tracks : List SpotifyTrack) :
    List Int × List String :=
  get_tracks_for_new_tidal_playlist_aux c [] spotify_tracks

/-- The id a source track resolves to in the production pass: `none` for a
falsy source id, a missing cache entry, or a cached id of `0` (falsy in
Python); used to state properties of `get_tracks_for_new_tidal_playlist`. -/
def resolved_id (c : Caches) (spotify_track : SpotifyTrack) : Option Int :=
  if !truthy_id spotify_track.id then none
  else
    match cache_get c spotify_track.id with
    | none => none
    | some tidal_id => if tidal_id = 0 then none else some tidal_id

/-- Spec-side deduplication: drop every element already emitted earlier in the
pass (first occurrence wins), relative to an already-seen set. -/
def dedup_first_aux (seen : List Int) : List Int → List Int
  | [] => []
  | x :: xs =>
    if x ∈ seen then dedup_first_aux seen xs
    else x :: dedup_first_aux (x :: seen) xs

/-- Outcome of a whole run for the retry model: either the wrapped coroutine's
value or `sys.exit(code)`. -/
inductive RunOutcome where
  | completed (value : Int)
  | aborted (exit_code : Nat)
  deriving DecidableEq, Repr

/-- The sleep table `{5: 1, 4: 10, 3: 60, 2: 5*60, 1: 10*60}` with the
`.get(remaining, 1)` default. -/
def sleep_schedule (remaining : Nat) : Nat :=
  if remaining = 5 then 1
  else if remaining = 4 then 10
  else if remaining = 3 then 60
  else if remaining = 2 then 5 * 60
  else if remaining = 1 then 10 * 60
  else 1

/-- `repeat_on_request_error(function, *args, remaining=5)`: each attempt is
`attempt i` (`some v` = the call returns `v`, `none` = it raises a transient
error: `TooManyRequests` or `RequestException`).  On an error with
`remaining = 0` the run exits with status 1; otherwise it sleeps
`sleep_schedule(remaining)` seconds and recurses with `remaining - 1`.
Returns the list of sleeps performed and the outcome. -/
def repeat_on_request_error (attempt : Nat → Option Int) :
    Nat → Nat → List Nat × RunOutcome
  | remaining, idx =>
    match attempt idx with
    | some v => ([], RunOutcome.completed v)
    | none =>
      match remaining with
      | 0 => ([], RunOutcome.aborted 1)
      | r + 1 =>
        let rest := repeat_on_request_error attempt r (idx + 1)
        (sleep_schedule (r + 1) :: rest.1, rest.2)

/-- One page returned by the Spotify fetch collaborator: `items` are the
`item['track']` fields (possibly `None`), plus the pagination metadata the
code reads. -/
structure SpotifyPage where
  items : List (Option SpotifyTrack)
  next : Bool
  total : Nat
  limit : Nat

/-- The non-`None` tracks of a page:
`[item['track'] for item in page['items'] if item['track'] is not None]`. -/
def page_tracks (p : SpotifyPage) : List SpotifyTrack :=
  p.items.reduceOption

/-- `_fetch_all_from_spotify_in_chunks(fetch_function)`: page 0, then — if the
first page says there is more — the pages at offsets
`limit * n` for `n in range(1, ceil(total / limit))`, gathered in offset
order.  (`math.ceil` of the true division equals `(total + limit - 1) / limit`
in `Nat` for a positive limit; a zero limit raises in Python and is not
modelled.) -/
def fetch_all_from_spotify_in_chunks (fetch_function : Nat → SpotifyPage) : List SpotifyTrack :=
  let results := fetch_function 0
  let output := page_tracks results
  if results.next then
    let offsets := ((List.range ((results.total + results.limit - 1) / results.limit)).drop 1).map
      (fun n => results.limit * n)
    output ++ (offsets.map (fun offset => page_tracks (fetch_function offset))).flatten
  else output

/-- `get_tracks_from_spotify_favorites(spotify_session)`: fetch all favorite
pages, then `tracks.reverse()`. -/
def get_tracks_from_spotify_favorites (fetch_function : Nat → SpotifyPage) : List SpotifyTrack :=
  (fetch_all_from_spotify_in_chunks fetch_function).reverse

/-- The pages the chunked fetch consults, in fetch order: page 0, then the
offset pages when page 0 announces more. -/
def fetched_pages (fetch_function : Nat → SpotifyPage) : List SpotifyPage :=
  let results := fetch_function 0
  results ::
    (if results.next then
      (((List.range ((results.total + results.limit - 1) / results.limit)).drop 1).map
        (fun n => results.limit * n)).map fetch_function
    else [])

/-! Concrete instances used by counterexamples and witnesses. -/

/-- A source track with ISRC `"ISRC1"` and a remix-free title. -/
def sC2 : SpotifyTrack := ⟨some "s", "Alpha", ["A"], 100000, none, 1, some "ISRC1"⟩

/-- A candidate with the same ISRC whose title contains "remix". -/
def tC2 : TidalTrack := ⟨3, "Alpha (Remix)", none, ["A"], 100, some "ISRC1", true⟩

/-- A source track whose candidate title alone contains "remix" and whose ISRC
differs from the candidate's. -/
def sC2w : SpotifyTrack := ⟨some "s", "Alpha", ["A"], 100000, none, 1, some "ISRC1"⟩

/-- Candidate for the C2 witness: remix title, different ISRC. -/
def tC2w : TidalTrack := ⟨3, "Alpha (Remix)", none, ["A"], 100, some "OTHER", true⟩

/-- A source track with a `None` id but a present ISRC. -/
def sC3 : SpotifyTrack := ⟨none, "Alpha", ["A"], 100000, none, 1, some "ISRC1"⟩

/-- A candidate sharing `sC3`'s ISRC while every other signal diverges. -/
def tC3 : TidalTrack := ⟨4, "Totally Different", none, ["Z"], 500, some "ISRC1", true⟩

/-- C3 witness source track: truthy id, ISRC `"ISRC1"`, signals divergent. -/
def sC3w : SpotifyTrack := ⟨some "s", "Alpha", ["A"], 100000, none, 1, some "ISRC1"⟩

/-- C3 witness candidate: same ISRC, every other signal divergent. -/
def tC3w : TidalTrack := ⟨4, "Totally Different", none, ["Z"], 500, some "ISRC1", true⟩

/-- C7 witness source track. -/
def sC7 : SpotifyTrack := ⟨some "s", "Alpha", ["A"], 100000, none, 1, some "ISRC1"⟩

/-- C7 witness candidate: identical name and artist, duration off by 5 s,
different ISRC. -/
def tC7 : TidalTrack := ⟨5, "Alpha", none, ["A"], 105, some "OTHER", true⟩

/-- C1 scenario: first source track, already on the target. -/
def sC1a : SpotifyTrack := ⟨some "s1", "Alpha", ["A"], 100000, none, 1, some "I1"⟩

/-- C1 scenario: second source track, new. -/
def sC1b : SpotifyTrack := ⟨some "s2", "Beta", ["B"], 100000, none, 1, some "I2"⟩

/-- C1 scenario: the target's existing track, matching `sC1a` by ISRC. -/
def tC1a : TidalTrack := ⟨1, "Alpha", none, ["A"], 100, some "I1", true⟩

/-- C1 scenario: the catalog track the search finds for `sC1b`. -/
def tC1b : TidalTrack := ⟨2, "Beta", none, ["B"], 100, some "I2", true⟩

/-- C1 scenario session: album search empty, track search returns `tC1b`. -/
def sessC1 : Session := ⟨fun _ => [], fun _ => [tC1b], fun _ _ => 0⟩

/-- The caches after the C1 run: both source ids resolved. -/
def cC1final : Caches := ⟨[(some "s2", 2), (some "s1", 1)], []⟩

/-- C6 counterexample pre-state: a failure cached for id `"s1"` (from an
earlier run), no match records. -/
def cC6pre : Caches := ⟨[], [some "s1"]⟩

/-- C6 counterexample source track with id `"s1"`. -/
def sC6 : SpotifyTrack := ⟨some "s1", "Alpha", ["A"], 100000, none, 1, some "I1"⟩

/-- C6 counterexample: an available target track matching `sC6`. -/
def tC6 : TidalTrack := ⟨7, "Alpha", none, ["A"], 100, some "I1", true⟩

/-- C6 witness session: both searches empty. -/
def sessC6w : Session := ⟨fun _ => [], fun _ => [], fun _ _ => 0⟩

/-- C6 witness source track (no album, one artist). -/
def sC6w : SpotifyTrack := ⟨some "w", "Alpha", ["A"], 100000, none, 1, none⟩

/-- C8 counterexample cache: two distinct source ids both mapped to the
catalog id `0`, which Python's `if tidal_id:` treats as falsy. -/
def cC8 : Caches := ⟨[(some "a", 0), (some "b", 0)], []⟩

/-- C8 source track with id `"a"`. -/
def sC8a : SpotifyTrack := ⟨some "a", "Alpha", ["A"], 100000, none, 1, none⟩

/-- C8 source track with id `"b"`. -/
def sC8b : SpotifyTrack := ⟨some "b", "Beta", ["B"], 100000, none, 1, none⟩

/-- C8 witness cache: the same two source ids mapped to the nonzero id `5`. -/
def cC8w : Caches := ⟨[(some "a", 5), (some "b", 5)], []⟩

/-- C9 source track. -/
def sC9 : SpotifyTrack := ⟨some "s9", "Alpha", ["A"], 100000, none, 1, some "I9"⟩

/-- C9: an *unavailable* catalog track matching `sC9` by ISRC. -/
def tC9 : TidalTrack := ⟨9, "Alpha", none, ["A"], 100, some "I9", false⟩

/-- C9 session whose track search returns only the unavailable `tC9`. -/
def sessC9 : Session := ⟨fun _ => [], fun _ => [tC9], fun _ _ => 0⟩

/-- C9 witness source track. -/
def sW9 : SpotifyTrack := ⟨some "p", "Gamma", ["G"], 100000, none, 1, some "I10"⟩

/-- C9 witness target track (available, matches `sW9` by ISRC). -/
def tW9 : TidalTrack := ⟨9, "Gamma", none, ["G"], 100, some "I10", true⟩

/-! Theorems. -/

/-- The integer-scaled `duration_match` agrees with the source's
true-division formulation `abs(duration - duration_ms/1000) < 2` over `ℚ`. -/
theorem duration_match_iff_rat (tidal_track : TidalTrack) (spotify_track : SpotifyTrack) :
    duration_match tidal_track spotify_track = true ↔
      |(tidal_track.duration : ℚ) - (spotify_track.duration_ms : ℚ) / 1000| < 2 := by
  unfold duration_match
  rw [decide_eq_true_iff]
  have h0 : (0 : ℚ) < 1000 := by norm_num
  have hrw : (tidal_track.duration : ℚ) - (spotify_track.duration_ms : ℚ) / 1000 =
      ((tidal_track.duration * 1000 - spotify_track.duration_ms : ℤ) : ℚ) / 1000 := by
    push_cast
    ring
  rw [hrw, abs_div, abs_of_pos h0, div_lt_iff₀ h0, ← Int.cast_abs]
  constructor <;> intro h <;> exact_mod_cast h

/-- Helper: `name_match` is false as soon as one of the three exclusion rules
fires. -/
theorem name_match_eq_false_of_exclusion (tidal_track : TidalTrack) (spotify_track : SpotifyTrack)
    (h : exclusion_rule "instrumental" tidal_track spotify_track = true ∨
         exclusion_rule "acapella" tidal_track spotify_track = true ∨
         exclusion_rule "remix" tidal_track spotify_track = true) :
    name_match tidal_track spotify_track = false := by
  rcases h with h | h | h <;> simp [name_match, h]

/-- C2 (counterexample): source title "Alpha" vs candidate title
"Alpha (Remix)" — exactly one side contains "remix" — yet with equal ISRCs
(and agreeing duration and artist) `matches` returns `true`, because the ISRC
short-circuit precedes the name rules. -/
theorem claim_c2_counterexample :
    exclusion_rule "remix" tC2 sC2 = true ∧
    isrc_match tC2 sC2 = true ∧
    duration_match tC2 sC2 = true ∧
    artist_match tC2.artists sC2.artists = true ∧
    match_tracks tC2 sC2 = true := by decide

/-- C2 (amended): when additionally the ISRC signal does not confirm the pair
(`isrc_match` false: ISRC absent or unequal), a presence disagreement on
"instrumental", "acapella" or "remix" between the source title and the
candidate title-or-version forces `matches` to be false, even if duration and
artist agree. -/
theorem claim_c2 (tidal_track : TidalTrack) (spotify_track : SpotifyTrack)
    (hisrc : isrc_match tidal_track spotify_track = false)
    (hexcl : exclusion_rule "instrumental" tidal_track spotify_track = true ∨
             exclusion_rule "acapella" tidal_track spotify_track = true ∨
             exclusion_rule "remix" tidal_track spotify_track = true) :
    match_tracks tidal_track spotify_track = false := by
  have hname := name_match_eq_false_of_exclusion tidal_track spotify_track hexcl
  cases htr : truthy_id spotify_track.id <;>
    simp [match_tracks, htr, hisrc, hname]

/-- C2 (witness): the amended theorem applied to a concrete remix-mismatched
pair with unequal ISRCs. -/
theorem claim_c2_witness : match_tracks tC2w sC2w = false :=
  claim_c2 tC2w sC2w (by decide) (Or.inr (Or.inr (by decide)))

/-- C3 (counterexample): a source track with a `None` id and ISRC equal to the
candidate's: `matches` returns `false` (the falsy-id guard precedes the ISRC
check), falsifying the claim as universally stated. -/
theorem claim_c3_counterexample :
    sC3.isrc = some "ISRC1" ∧ tC3.isrc = some "ISRC1" ∧
    match_tracks tC3 sC3 = false := by decide

/-- C3 (amended): for every source track with a truthy id whose ISRC is
present and equal to the candidate's, `matches` returns true regardless of any
divergence in name, duration or artists. -/
theorem claim_c3 (tidal_track : TidalTrack) (spotify_track : SpotifyTrack) (code : String)
    (hid : truthy_id spotify_track.id = true)
    (hs : spotify_track.isrc = some code)
    (ht : tidal_track.isrc = some code) :
    match_tracks tidal_track spotify_track = true := by
  have hisrc : isrc_match tidal_track spotify_track = true := by
    simp [isrc_match, hs, ht]
  simp [match_tracks, hid, hisrc]

/-- C3 (witness): the amended theorem at a concrete pair whose name, duration
and artists all diverge. -/
theorem claim_c3_witness : match_tracks tC3w sC3w = true :=
  claim_c3 tC3w sC3w "ISRC1" (by decide) rfl rfl

/-- C7: whenever the durations differ by at least 2 seconds
(`|duration - duration_ms/1000| ≥ 2` over `ℚ`) and the ISRC signal does not
confirm the pair, `matches` is false. -/
theorem claim_c7 (tidal_track : TidalTrack) (spotify_track : SpotifyTrack)
    (hdur : |(tidal_track.duration : ℚ) - (spotify_track.duration_ms : ℚ) / 1000| ≥ 2)
    (hisrc : isrc_match tidal_track spotify_track = false) :
    match_tracks tidal_track spotify_track = false := by
  have hd : duration_match tidal_track spotify_track = false := by
    cases h : duration_match tidal_track spotify_track
    · rfl
    · exact absurd ((duration_match_iff_rat tidal_track spotify_track).mp h)
        (not_lt.mpr hdur)
  cases htr : truthy_id spotify_track.id <;>
    simp [match_tracks, htr, hisrc, hd]

/-- C7 (witness): a concrete pair differing by 5 seconds with unequal ISRCs,
identical titles and artists. -/
theorem claim_c7_witness : match_tracks tC7 sC7 = false :=
  claim_c7 tC7 sC7 (by norm_num [tC7, sC7]) (by decide)

/-- C4: the updater's decision on the two id sequences — no-op on equality,
append of exactly the suffix when the old sequence is a proper prefix of the
new one, full replace otherwise. -/
theorem claim_c4 (old_ids new_ids : List Int) :
    (new_ids = old_ids → playlist_diff_action old_ids new_ids = PlaylistAction.noop) ∧
    (new_ids ≠ old_ids → (∃ rest, new_ids = old_ids ++ rest) →
      playlist_diff_action old_ids new_ids =
        PlaylistAction.append (new_ids.drop old_ids.length)) ∧
    (new_ids ≠ old_ids → (¬ ∃ rest, new_ids = old_ids ++ rest) →
      playlist_diff_action old_ids new_ids = PlaylistAction.replace new_ids) := by
  refine ⟨fun h => by simp [playlist_diff_action, h], fun hne hpre => ?_, fun hne hpre => ?_⟩
  · obtain ⟨rest, hrest⟩ := hpre
    have htake : new_ids.take old_ids.length = old_ids := by
      subst hrest
      exact List.take_left old_ids rest
    simp [playlist_diff_action, hne, htake]
  · have htake : new_ids.take old_ids.length ≠ old_ids := by
      intro h
      exact hpre ⟨new_ids.drop old_ids.length, by
        conv_lhs => rw [← List.take_append_drop old_ids.length new_ids]
        rw [h]⟩
    simp [playlist_diff_action, hne, htake]

/-- C4 (witness): `[1,2] → [1,2,3]` is an append of exactly `[3]`. -/
theorem claim_c4_witness :
    playlist_diff_action [1, 2] [1, 2, 3] = PlaylistAction.append [3] :=
  (claim_c4 [1, 2] [1, 2, 3]).2.1 (by decide) ⟨[3], rfl⟩

/-- C5: if the initial attempt and all five retries raise transient errors,
the call sleeps exactly 1 s, 10 s, 60 s, 300 s and 600 s before the five
retries and then exits the process with the non-zero status 1. -/
theorem claim_c5 (attempt : Nat → Option Int)
    (h : ∀ i, i < 6 → attempt i = none) :
    repeat_on_request_error attempt 5 0 = ([1, 10, 60, 300, 600], RunOutcome.aborted 1) ∧
      (1 : Nat) ≠ 0 := by
  have h0 := h 0 (by norm_num)
  have h1 := h 1 (by norm_num)
  have h2 := h 2 (by norm_num)
  have h3 := h 3 (by norm_num)
  have h4 := h 4 (by norm_num)
  have h5 := h 5 (by norm_num)
  refine ⟨?_, by norm_num⟩
  simp [repeat_on_request_error, sleep_schedule, h0, h1, h2, h3, h4, h5]

/-- C5 (witness): the theorem at the always-failing attempt function. -/
theorem claim_c5_witness :
    repeat_on_request_error (fun _ => none) 5 0 = ([1, 10, 60, 300, 600], RunOutcome.aborted 1) ∧
      (1 : Nat) ≠ 0 :=
  claim_c5 (fun _ => none) (fun _ _ => rfl)

/-- C10: `get_tracks_from_spotify_favorites` returns exactly the
concatenation of the non-null items of all fetched pages, reversed. -/
theorem claim_c10 (fetch_function : Nat → SpotifyPage) :
    get_tracks_from_spotify_favorites fetch_function =
      (((fetched_pages fetch_function).map page_tracks).flatten).reverse := by
  unfold get_tracks_from_spotify_favorites fetch_all_from_spotify_in_chunks fetched_pages
  by_cases h : (fetch_function 0).next <;> simp [h, List.map_map, Function.comp]
  rfl

/-- Removing a failure record really clears it. -/
theorem has_match_failure_remove (c : Caches) (k : Option String) :
    has_match_failure (remove_match_failure c k) k = false := by
  simp [has_match_failure, remove_match_failure, List.mem_filter]

/-- Inserting a match record leaves the failure records unchanged. -/
theorem failure_records_cache_insert (c : Caches) (p : Option String × Int) :
    (cache_insert c p).failure_records = c.failure_records := rfl

/-- Caching a failure leaves the match records unchanged. -/
theorem match_records_cache_match_failure (c : Caches) (k : Option String) :
    (cache_match_failure c k).match_records = c.match_records := by
  unfold cache_match_failure
  split <;> rfl

/-- Removing a failure leaves the match records unchanged. -/
theorem match_records_remove_match_failure (c : Caches) (k : Option String) :
    (remove_match_failure c k).match_records = c.match_records := rfl

/-- `cache_get` only reads the match records. -/
theorem cache_get_congr (c₁ c₂ : Caches) (k : Option String)
    (h : c₁.match_records = c₂.match_records) : cache_get c₁ k = cache_get c₂ k := by
  unfold cache_get
  rw [h]

/-- `has_match_failure` only reads the failure records. -/
theorem has_match_failure_congr (c₁ c₂ : Caches) (k : Option String)
    (h : c₁.failure_records = c₂.failure_records) :
    has_match_failure c₁ k = has_match_failure c₂ k := by
  unfold has_match_failure
  rw [h]

/-- The standalone-track loop leaves the caches unchanged unless it confirms a
match, in which case it removes the searched id's failure record. -/
theorem search_track_loop_cache_spec (s : SpotifyTrack) (c : Caches) :
    ∀ l : List TidalTrack,
      (search_track_loop s c l).2 =
        (if (search_track_loop s c l).1.isSome then remove_match_failure c s.id else c) := by
  intro l
  induction l with
  | nil => simp [search_track_loop]
  | cons t rest ih =>
    by_cases h : match_tracks t s = true
    · simp [search_track_loop, h]
    · simp only [Bool.not_eq_true] at h
      simpa [search_track_loop, h] using ih

/-- The album loop leaves the caches unchanged unless it confirms a match, in
which case it removes the searched id's failure record. -/
theorem search_album_loop_cache_spec (sess : Session) (s : SpotifyTrack) (a0 : SpotifyAlbum)
    (c : Caches) : ∀ (albums : List Album) (r : Option TidalTrack) (c₂ : Caches),
      search_album_loop sess s a0 c albums = Except.ok (r, c₂) →
      c₂ = (if r.isSome then remove_match_failure c s.id else c) := by
  intro albums
  induction albums with
  | nil =>
    intro r c₂ h
    simp [search_album_loop] at h
    simp [← h.1, ← h.2]
  | cons album rest ih =>
    intro r c₂ h
    rw [search_album_loop] at h
    split at h
    · split at h
      · split at h
        · exact absurd h (by simp)
        · exact ih r c₂ h
      · split at h
        · exact absurd h (by simp)
        · rename_i track _
          split at h
          · simp only [Except.ok.injEq, Prod.mk.injEq] at h
            rw [← h.1, ← h.2]
            simp
          · exact ih r c₂ h
    · exact ih r c₂ h

/-- Stage 1 cache effect: unchanged caches unless a match was confirmed. -/
theorem search_for_track_in_album_cache_spec (sess : Session) (s : SpotifyTrack)
    (c : Caches) (r : Option TidalTrack) (c₂ : Caches)
    (h : search_for_track_in_album sess s c = Except.ok (r, c₂)) :
    c₂ = (if r.isSome then remove_match_failure c s.id else c) := by
  unfold search_for_track_in_album at h
  split at h
  · simp at h
    simp [← h.1, ← h.2]
  · split at h
    · simp at h
      simp [← h.1, ← h.2]
    · exact search_album_loop_cache_spec sess s _ c _ r c₂ h

/-- Stage 2 cache effect: unchanged caches unless a match was confirmed. -/
theorem search_for_standalone_track_cache_spec (sess : Session) (s : SpotifyTrack)
    (c : Caches) (r : Option TidalTrack) (c₂ : Caches)
    (h : search_for_standalone_track sess s c = Except.ok (r, c₂)) :
    c₂ = (if r.isSome then remove_match_failure c s.id else c) := by
  unfold search_for_standalone_track at h
  split at h
  · exact absurd h (by simp)
  · rename_i artist0 tail0 heq0
    simp only [Except.ok.injEq] at h
    have hspec := search_track_loop_cache_spec s c
      (sess.search_tracks (simple s.name ++ " " ++ simple artist0))
    rw [h] at hspec
    simpa using hspec

/-- `tidal_search` cache effect: on a confirmed match the searched id's
failure record is removed and nothing else changes; with no match the caches
come back with exactly that id's failure recorded. -/
theorem tidal_search_cache_spec (sess : Session) (s : SpotifyTrack) (c : Caches)
    (r : Option TidalTrack) (c₂ : Caches)
    (h : tidal_search sess s c = Except.ok (r, c₂)) :
    (∀ t, r = some t → c₂ = remove_match_failure c s.id) ∧
    (r = none → c₂ = cache_match_failure c s.id) := by
  unfold tidal_search at h
  cases h1 : search_for_track_in_album sess s c with
  | error e => rw [h1] at h; exact absurd h (by simp)
  | ok p =>
    obtain ⟨r1, c1⟩ := p
    have hc1 := search_for_track_in_album_cache_spec sess s c r1 c1 h1
    rw [h1] at h
    cases r1 with
    | some t =>
      simp only [Option.isSome_some, if_pos] at hc1
      simp only [Except.ok.injEq, Prod.mk.injEq] at h
      refine ⟨fun u hu => ?_, fun hn => ?_⟩
      · rw [← h.2, hc1]
      · rw [hn] at h; exact absurd h.1 (by simp)
    | none =>
      simp only [Option.isSome_none, Bool.false_eq_true, if_neg, ite_false] at hc1
      rw [hc1] at h
      dsimp only at h
      cases h2 : search_for_standalone_track sess s c with
      | error e => rw [h2] at h; exact absurd h (by simp)
      | ok q =>
        obtain ⟨r2, c3⟩ := q
        have hc3 := search_for_standalone_track_cache_spec sess s c r2 c3 h2
        rw [h2] at h
        cases r2 with
        | some t =>
          simp only [Option.isSome_some, if_pos] at hc3
          simp only [Except.ok.injEq, Prod.mk.injEq] at h
          refine ⟨fun u hu => ?_, fun hn => ?_⟩
          · rw [← h.2, hc3]
          · rw [hn] at h; exact absurd h.1 (by simp)
        | none =>
          simp only [Option.isSome_none, Bool.false_eq_true, if_neg, ite_false] at hc3
          rw [hc3] at h
          simp only [Except.ok.injEq, Prod.mk.injEq] at h
          refine ⟨fun u hu => ?_, fun _ => h.2.symm⟩
          · rw [← h.1] at hu; exact absurd hu (by simp)

/-- C6 (amended): along the search path the mutual-exclusion invariant holds —
`tidal_search` removes the prior failure record whenever it confirms a match,
records a failure exactly when both stages yield none, and the subsequent
match-cache insertion performed by `search_new_tracks_on_tidal` leaves the
searched id (which had no match record, as searched ids never do) without
simultaneous match and failure records. -/
theorem claim_c6 (sess : Session) (spotify_track : SpotifyTrack) (c : Caches)
    (r : Option TidalTrack) (c₁ : Caches)
    (hget : cache_get c spotify_track.id = none)
    (hrun : tidal_search sess spotify_track c = Except.ok (r, c₁)) :
    (∀ t, r = some t → has_match_failure c₁ spotify_track.id = false) ∧
    (r = none → c₁ = cache_match_failure c spotify_track.id) ∧
    ¬(((cache_get (match r with
          | some t => cache_insert c₁ (spotify_track.id, t.id)
          | none => c₁) spotify_track.id).isSome = true) ∧
       has_match_failure (match r with
          | some t => cache_insert c₁ (spotify_track.id, t.id)
          | none => c₁) spotify_track.id = true) := by
  obtain ⟨hsome, hnone⟩ := tidal_search_cache_spec sess spotify_track c r c₁ hrun
  refine ⟨?_, hnone, ?_⟩
  · intro t ht
    rw [hsome t ht]
    exact has_match_failure_remove c spotify_track.id
  · cases r with
    | some t =>
      intro hcontra
      have hfail : has_match_failure (cache_insert c₁ (spotify_track.id, t.id))
          spotify_track.id = false := by
        rw [has_match_failure_congr _ c₁ _ (failure_records_cache_insert c₁ _)]
        rw [hsome t rfl]
        exact has_match_failure_remove c spotify_track.id
      rw [hfail] at hcontra
      exact Bool.false_ne_true hcontra.2
    | none =>
      intro hcontra
      have hg : cache_get c₁ spotify_track.id = none := by
        rw [hnone rfl, cache_get_congr _ c _ (match_records_cache_match_failure c _)]
        exact hget
      rw [hg] at hcontra
      simp at hcontra

/-- C6 (witness): the amended theorem at a concrete empty-result search. -/
theorem claim_c6_witness :
    (∀ t, (none : Option TidalTrack) = some t →
      has_match_failure (⟨[], [some "w"]⟩ : Caches) sC6w.id = false) ∧
    ((none : Option TidalTrack) = none →
      (⟨[], [some "w"]⟩ : Caches) = cache_match_failure ⟨[], []⟩ sC6w.id) ∧
    ¬(((cache_get (match (none : Option TidalTrack) with
          | some t => cache_insert (⟨[], [some "w"]⟩ : Caches) (sC6w.id, t.id)
          | none => (⟨[], [some "w"]⟩ : Caches)) sC6w.id).isSome = true) ∧
       has_match_failure (match (none : Option TidalTrack) with
          | some t => cache_insert (⟨[], [some "w"]⟩ : Caches) (sC6w.id, t.id)
          | none => (⟨[], [some "w"]⟩ : Caches)) sC6w.id = true) :=
  claim_c6 sessC6w sC6w ⟨[], []⟩ none ⟨[], [some "w"]⟩ rfl rfl

/-- C6 (counterexample): starting from a cached failure for id "s1" (left by a
previous run), `populate_track_match_cache` confirms a match for "s1" and
inserts the MatchRecord without removing the FailureRecord, so the two records
coexist, contrary to the claimed invariant. -/
theorem claim_c6_counterexample :
    has_match_failure cC6pre (some "s1") = true ∧
    cache_get (populate_track_match_cache [sC6] [tC6] cC6pre) (some "s1") = some 7 ∧
    has_match_failure (populate_track_match_cache [sC6] [tC6] cC6pre) (some "s1") = true := by
  decide

/-- Key lookups ignore entries filtered out for a different key. -/
theorem lookup_filter_ne (k p1 : Option String) (hne : k ≠ p1) :
    ∀ l : List (Option String × Int),
      lookup_records (l.filter (fun q => q.1 ≠ p1)) k = lookup_records l k := by
  intro l
  induction l with
  | nil => rfl
  | cons q rest ih =>
    rw [List.filter_cons]
    by_cases hq : q.1 = p1
    · have hd : (decide (q.1 ≠ p1)) = false := by simp [hq]
      rw [hd]
      simp only [Bool.false_eq_true, if_false]
      rw [ih, lookup_records, if_neg (fun h : q.1 = k => hne (hq ▸ h ▸ rfl))]
    · have hd : (decide (q.1 ≠ p1)) = true := by simp [hq]
      rw [hd]
      simp only [if_true]
      rw [lookup_records, lookup_records, ih]

/-- Lookup after an overwrite-insert: the inserted pair for its own key,
the old cache otherwise. -/
theorem cache_get_cache_insert (c : Caches) (p : Option String × Int) (k : Option String) :
    cache_get (cache_insert c p) k = if k = p.1 then some p.2 else cache_get c k := by
  unfold cache_get cache_insert
  dsimp only
  rw [lookup_records]
  by_cases hk : k = p.1
  · rw [if_pos hk.symm, if_pos hk]
  · rw [if_neg (fun h => hk h.symm), if_neg hk, lookup_filter_ne k p.1 hk]

/-- Any match record added by `_populate_one_track_from_tidal` points at the
scanned (available) Tidal track. -/
theorem populate_one_from_tidal_get (t : TidalTrack) :
    ∀ (ss : List SpotifyTrack) (c : Caches) (k : Option String) (v : Int),
      cache_get (populate_one_track_from_tidal t ss c).2 k = some v →
      cache_get c k = some v ∨ (v = t.id ∧ t.available = true) := by
  intro ss
  induction ss with
  | nil => exact fun c k v h => Or.inl h
  | cons s rest ih =>
    intro c k v h
    rw [populate_one_track_from_tidal] at h
    by_cases hm : (t.available && match_tracks t s) = true
    · rw [if_pos hm] at h
      dsimp only at h
      rw [cache_get_cache_insert] at h
      split at h
      · right
        exact ⟨(Option.some.injEq _ _ ▸ h).symm, (Bool.and_eq_true _ _).mp hm |>.1⟩
      · exact Or.inl h
    · rw [if_neg hm] at h
      dsimp only at h
      exact ih c k v h

/-- Any match record added by `_populate_one_track_from_spotify` points at an
available track of the scanned Tidal list. -/
theorem populate_one_from_spotify_get (s : SpotifyTrack) :
    ∀ (ts : List TidalTrack) (c : Caches) (k : Option String) (v : Int),
      cache_get (populate_one_track_from_spotify s ts c).2 k = some v →
      cache_get c k = some v ∨ ∃ t, t ∈ ts ∧ v = t.id ∧ t.available = true := by
  intro ts
  induction ts with
  | nil => exact fun c k v h => Or.inl h
  | cons t rest ih =>
    intro c k v h
    rw [populate_one_track_from_spotify] at h
    by_cases hm : (t.available && match_tracks t s) = true
    · rw [if_pos hm] at h
      dsimp only at h
      rw [cache_get_cache_insert] at h
      split at h
      · right
        exact ⟨t, List.mem_cons_self t rest,
          (Option.some.injEq _ _ ▸ h).symm, (Bool.and_eq_true _ _).mp hm |>.1⟩
      · exact Or.inl h
    · rw [if_neg hm] at h
      dsimp only at h
      rcases ih c k v h with h' | ⟨u, hu, huv, hua⟩
      · exact Or.inl h'
      · exact Or.inr ⟨u, List.mem_cons_of_mem t hu, huv, hua⟩

/-- The Tidal working list only shrinks: survivors of
`_populate_one_track_from_spotify` come from the scanned list. -/
theorem populate_one_from_spotify_subset (s : SpotifyTrack) :
    ∀ (ts : List TidalTrack) (c : Caches) (x : TidalTrack),
      x ∈ (populate_one_track_from_spotify s ts c).1 → x ∈ ts := by
  intro ts
  induction ts with
  | nil => intro c x h; exact absurd h (by simp [populate_one_track_from_spotify])
  | cons t rest ih =>
    intro c x h
    rw [populate_one_track_from_spotify] at h
    by_cases hm : (t.available && match_tracks t s) = true
    · rw [if_pos hm] at h
      exact List.mem_cons_of_mem t h
    · rw [if_neg hm] at h
      dsimp only at h
      rcases List.mem_cons.mp h with h' | h'
      · exact h' ▸ List.mem_cons_self t rest
      · exact List.mem_cons_of_mem t (ih c x h')

/-- Any match record added by the first populate pass points at an available
track of the input Tidal list. -/
theorem populate_pass_tidal_get :
    ∀ (ts : List TidalTrack) (ss : List SpotifyTrack) (c : Caches)
      (k : Option String) (v : Int),
      cache_get (populate_pass_tidal ts ss c).2 k = some v →
      cache_get c k = some v ∨ ∃ t, t ∈ ts ∧ v = t.id ∧ t.available = true := by
  intro ts
  induction ts with
  | nil => exact fun ss c k v h => Or.inl h
  | cons t rest ih =>
    intro ss c k v h
    rw [populate_pass_tidal] at h
    rcases ih _ _ k v h with h' | ⟨u, hu, huv, hua⟩
    · rcases populate_one_from_tidal_get t ss c k v h' with h'' | ⟨hv, ha⟩
      · exact Or.inl h''
      · exact Or.inr ⟨t, List.mem_cons_self t rest, hv, ha⟩
    · exact Or.inr ⟨u, List.mem_cons_of_mem t hu, huv, hua⟩

/-- Any match record added by the second populate pass points at an available
track of the working Tidal list. -/
theorem populate_pass_spotify_get :
    ∀ (ss : List SpotifyTrack) (ts : List TidalTrack) (c : Caches)
      (k : Option String) (v : Int),
      cache_get (populate_pass_spotify ss ts c) k = some v →
      cache_get c k = some v ∨ ∃ t, t ∈ ts ∧ v = t.id ∧ t.available = true := by
  intro ss
  induction ss with
  | nil => exact fun ts c k v h => Or.inl h
  | cons s rest ih =>
    intro ts c k v h
    rw [populate_pass_spotify] at h
    rcases ih _ _ k v h with h' | ⟨u, hu, huv, hua⟩
    · rcases populate_one_from_spotify_get s ts c k v h' with h'' | ⟨u, hu, huv, hua⟩
      · exact Or.inl h''
      · exact Or.inr ⟨u, hu, huv, hua⟩
    · exact Or.inr ⟨u, populate_one_from_spotify_subset s ts c u hu, huv, hua⟩

/-- C9: every match record inserted by cache pre-population points at an
available track of the input Tidal list, while a search-confirmed match
carries no availability check (`tidal_search` happily returns the unavailable
`tC9`). -/
theorem claim_c9 :
    (∀ (ss : List SpotifyTrack) (ts : List TidalTrack) (c : Caches)
       (k : Option String) (v : Int),
       cache_get (populate_track_match_cache ss ts c) k = some v →
       cache_get c k = some v ∨ ∃ t, t ∈ ts ∧ v = t.id ∧ t.available = true) ∧
    (tidal_search sessC9 sC9 ⟨[], []⟩ = Except.ok (some tC9, ⟨[], []⟩) ∧
      tC9.available = false) := by
  refine ⟨?_, rfl, rfl⟩
  intro ss ts c k v h
  unfold populate_track_match_cache at h
  dsimp only at h
  rcases populate_pass_spotify_get _ _ _ k v h with h' | h'
  · exact populate_pass_tidal_get ts ss c k v h'
  · exact Or.inr h'

/-- C9 (witness): the populate part applied to a concrete run that pairs
`sW9` with the available `tW9`. -/
theorem claim_c9_witness :
    cache_get (⟨[], []⟩ : Caches) (some "p") = some 9 ∨
      ∃ t, t ∈ [tW9] ∧ (9 : Int) = t.id ∧ t.available = true :=
  claim_c9.1 [sW9] [tW9] ⟨[], []⟩ (some "p") 9 (by decide)

/-- The produced id list of `get_tracks_for_new_tidal_playlist` is exactly the
first-occurrence deduplication of the cache-resolved id sequence. -/
theorem get_tracks_aux_fst (c : Caches) :
    ∀ (ts : List SpotifyTrack) (seen : List Int),
      (get_tracks_for_new_tidal_playlist_aux c seen ts).1 =
        dedup_first_aux seen (ts.filterMap (resolved_id c)) := by
  intro ts
  induction ts with
  | nil => intro seen; rfl
  | cons s rest ih =>
    intro seen
    rw [get_tracks_for_new_tidal_playlist_aux, List.filterMap_cons]
    cases ht : truthy_id s.id with
    | false =>
      have hres : resolved_id c s = none := by simp [resolved_id, ht]
      rw [hres]
      simpa [ht] using ih seen
    | true =>
      cases hg : cache_get c s.id with
      | none =>
        have hres : resolved_id c s = none := by simp [resolved_id, ht, hg]
        rw [hres]
        simpa [ht, hg] using ih seen
      | some tid =>
        by_cases h0 : tid = 0
        · have hres : resolved_id c s = none := by simp [resolved_id, ht, hg, h0]
          rw [hres]
          simpa [ht, hg, h0] using ih seen
        · have hres : resolved_id c s = some tid := by simp [resolved_id, ht, hg, h0]
          rw [hres]
          by_cases hseen : tid ∈ seen
          · rw [dedup_first_aux, if_pos hseen]
            simpa [ht, hg, h0, hseen] using ih seen
          · rw [dedup_first_aux, if_neg hseen]
            simpa [ht, hg, h0, hseen] using ih (tid :: seen)

/-- Membership in the first-occurrence dedup: present in the input and not
already seen. -/
theorem mem_dedup_first_aux (x : Int) :
    ∀ (l : List Int) (seen : List Int),
      x ∈ dedup_first_aux seen l ↔ x ∈ l ∧ x ∉ seen := by
  intro l
  induction l with
  | nil => intro seen; simp [dedup_first_aux]
  | cons y rest ih =>
    intro seen
    rw [dedup_first_aux]
    by_cases hy : y ∈ seen
    · rw [if_pos hy, ih]
      constructor
      · rintro ⟨hx, hs⟩
        exact ⟨List.mem_cons_of_mem y hx, hs⟩
      · rintro ⟨hx, hs⟩
        rcases List.mem_cons.mp hx with rfl | hx2
        · exact absurd hy hs
        · exact ⟨hx2, hs⟩
    · rw [if_neg hy]
      constructor
      · intro hx
        rcases List.mem_cons.mp hx with rfl | hx2
        · exact ⟨List.mem_cons_self _ _, hy⟩
        · have h2 := (ih (y :: seen)).mp hx2
          exact ⟨List.mem_cons_of_mem y h2.1,
            fun hs => h2.2 (List.mem_cons_of_mem y hs)⟩
      · rintro ⟨hx, hs⟩
        rcases List.mem_cons.mp hx with rfl | hx2
        · exact List.mem_cons_self _ _
        · by_cases hxy : x = y
          · subst hxy
            exact List.mem_cons_self _ _
          · refine List.mem_cons_of_mem y ((ih (y :: seen)).mpr ⟨hx2, fun hmem => ?_⟩)
            rcases List.mem_cons.mp hmem with h3 | h3
            · exact hxy h3
            · exact hs h3

/-- The first-occurrence dedup never emits an element twice. -/
theorem nodup_dedup_first_aux :
    ∀ (l seen : List Int), (dedup_first_aux seen l).Nodup := by
  intro l
  induction l with
  | nil => intro seen; exact List.nodup_nil
  | cons y rest ih =>
    intro seen
    rw [dedup_first_aux]
    by_cases hy : y ∈ seen
    · rw [if_pos hy]
      exact ih seen
    · rw [if_neg hy]
      refine List.nodup_cons.mpr ⟨fun hmem => ?_, ih (y :: seen)⟩
      exact ((mem_dedup_first_aux y rest (y :: seen)).mp hmem).2 (List.mem_cons_self _ _)

/-- Unpacking a successful resolution: truthy id, cached nonzero target id. -/
theorem resolved_id_elim (c : Caches) (s : SpotifyTrack) (tid : Int)
    (h : resolved_id c s = some tid) :
    truthy_id s.id = true ∧ cache_get c s.id = some tid ∧ ¬ tid = 0 := by
  unfold resolved_id at h
  cases ht : truthy_id s.id with
  | false => rw [ht] at h; simp at h
  | true =>
    rw [ht] at h
    simp only [Bool.not_true, Bool.false_eq_true, if_false] at h
    refine ⟨rfl, ?_⟩
    cases hg : cache_get c s.id with
    | none => rw [hg] at h; simp at h
    | some u =>
      rw [hg] at h
      dsimp only at h
      by_cases h0 : u = 0
      · rw [if_pos h0] at h
        exact absurd h (by simp)
      · rw [if_neg h0] at h
        have hu : u = tid := by simpa using h
        subst hu
        exact ⟨rfl, h0⟩

/-- Once a track's resolved id is already in the seen set, a later occurrence
of that track is reported in the duplicate log. -/
theorem get_tracks_aux_log_of_seen (c : Caches) (tid : Int) (s2 : SpotifyTrack)
    (hres : resolved_id c s2 = some tid) :
    ∀ (ts : List SpotifyTrack) (seen : List Int), tid ∈ seen → s2 ∈ ts →
      s2.name ∈ (get_tracks_for_new_tidal_playlist_aux c seen ts).2 := by
  obtain ⟨ht2, hg2, h02⟩ := resolved_id_elim c s2 tid hres
  intro ts
  induction ts with
  | nil => intro seen _ hmem; exact absurd hmem (List.not_mem_nil s2)
  | cons s rest ih =>
    intro seen hseen hmem
    rw [get_tracks_for_new_tidal_playlist_aux]
    rcases List.mem_cons.mp hmem with rfl | hmem2
    · simp [ht2, hg2, h02, hseen]
    · cases ht : truthy_id s.id with
      | false =>
        simpa [ht] using ih seen hseen hmem2
      | true =>
        cases hg : cache_get c s.id with
        | none => simpa [ht, hg] using ih seen hseen hmem2
        | some u =>
          by_cases h0 : u = 0
          · simpa [ht, hg, h0] using ih seen hseen hmem2
          · by_cases hu : u ∈ seen
            · simp only [ht, Bool.not_true, Bool.false_eq_true, if_false, hg, h0, hu,
                if_true, ite_false, ite_true]
              simp [h0, hu]
              exact Or.inr (ih seen hseen hmem2)
            · simp [ht, hg, h0, hu]
              exact ih (u :: seen) (List.mem_cons_of_mem u hseen) hmem2

/-- If an earlier source track resolves to `tid`, a later track resolving to
`tid` is reported in the duplicate log. -/
theorem get_tracks_aux_log_dup (c : Caches) (tid : Int) (s1 s2 : SpotifyTrack)
    (h1 : resolved_id c s1 = some tid) (h2 : resolved_id c s2 = some tid) :
    ∀ (us vs : List SpotifyTrack) (seen : List Int), s1 ∈ us →
      s2.name ∈ (get_tracks_for_new_tidal_playlist_aux c seen (us ++ s2 :: vs)).2 := by
  obtain ⟨ht1, hg1, h01⟩ := resolved_id_elim c s1 tid h1
  intro us
  induction us with
  | nil => intro vs seen hmem; exact absurd hmem (List.not_mem_nil s1)
  | cons u us1 ih =>
    intro vs seen hmem
    rw [List.cons_append, get_tracks_for_new_tidal_playlist_aux]
    rcases List.mem_cons.mp hmem with rfl | hmem2
    · by_cases hseen : tid ∈ seen
      · simp [ht1, hg1, h01, hseen]
        exact Or.inr (get_tracks_aux_log_of_seen c tid s2 h2 _ seen hseen
          (List.mem_append_right us1 (List.mem_cons_self s2 vs)))
      · simp [ht1, hg1, h01, hseen]
        exact get_tracks_aux_log_of_seen c tid s2 h2 _ (tid :: seen)
          (List.mem_cons_self tid seen)
          (List.mem_append_right us1 (List.mem_cons_self s2 vs))
    · cases ht : truthy_id u.id with
      | false => simpa [ht] using ih vs seen hmem2
      | true =>
        cases hg : cache_get c u.id with
        | none => simpa [ht, hg] using ih vs seen hmem2
        | some w =>
          by_cases h0 : w = 0
          · simpa [ht, hg, h0] using ih vs seen hmem2
          · by_cases hw : w ∈ seen
            · simp [ht, hg, h0, hw]
              exact Or.inr (ih vs seen hmem2)
            · simp [ht, hg, h0, hw]
              exact ih vs (w :: seen) hmem2

/-- C8 (amended): if two source tracks with distinct (truthy) ids resolve via
the match cache to the same *nonzero* target id, the produced id list contains
that target id exactly once, the later occurrence is reported as a duplicate,
and the whole output is the first-occurrence dedup of the cache-resolved
sequence (so the surviving occurrence sits at the position of the first one). -/
theorem claim_c8 (c : Caches) (us vs : List SpotifyTrack) (s1 s2 : SpotifyTrack) (tid : Int)
    (hmem : s1 ∈ us) (_hids : s1.id ≠ s2.id)
    (h1 : resolved_id c s1 = some tid) (h2 : resolved_id c s2 = some tid) :
    (get_tracks_for_new_tidal_playlist c (us ++ s2 :: vs)).1.count tid = 1 ∧
    s2.name ∈ (get_tracks_for_new_tidal_playlist c (us ++ s2 :: vs)).2 ∧
    (get_tracks_for_new_tidal_playlist c (us ++ s2 :: vs)).1 =
      dedup_first_aux [] ((us ++ s2 :: vs).filterMap (resolved_id c)) := by
  have hfst := get_tracks_aux_fst c (us ++ s2 :: vs) []
  refine ⟨?_, get_tracks_aux_log_dup c tid s1 s2 h1 h2 us vs [] hmem, hfst⟩
  rw [get_tracks_for_new_tidal_playlist, hfst]
  have hm : tid ∈ dedup_first_aux [] ((us ++ s2 :: vs).filterMap (resolved_id c)) := by
    rw [mem_dedup_first_aux]
    exact ⟨List.mem_filterMap.mpr ⟨s1, List.mem_append_left _ hmem, h1⟩,
      List.not_mem_nil tid⟩
  exact List.count_eq_one_of_mem (nodup_dedup_first_aux _ []) hm

/-- C8 (witness): the amended theorem for the concrete cache mapping the two
distinct ids "a" and "b" to the nonzero target id 5. -/
theorem claim_c8_witness :
    (get_tracks_for_new_tidal_playlist cC8w ([sC8a] ++ sC8b :: [])).1.count 5 = 1 ∧
    sC8b.name ∈ (get_tracks_for_new_tidal_playlist cC8w ([sC8a] ++ sC8b :: [])).2 ∧
    (get_tracks_for_new_tidal_playlist cC8w ([sC8a] ++ sC8b :: [])).1 =
      dedup_first_aux [] (([sC8a] ++ sC8b :: []).filterMap (resolved_id cC8w)) :=
  claim_c8 cC8w [sC8a] [] sC8a sC8b 5 (List.mem_singleton.mpr rfl) (by decide) rfl rfl

/-- C8 (counterexample): with the two distinct source ids "a" and "b" both
resolving to the target id 0 — falsy in Python — the output contains that
target id zero times (not once) and no duplicate is reported. -/
theorem claim_c8_counterexample :
    sC8a.id ≠ sC8b.id ∧
    cache_get cC8 sC8a.id = some 0 ∧
    cache_get cC8 sC8b.id = some 0 ∧
    (get_tracks_for_new_tidal_playlist cC8 [sC8a, sC8b]).1.count 0 = 0 ∧
    (get_tracks_for_new_tidal_playlist cC8 [sC8a, sC8b]).2 = [] := by
  decide

/-- C1 (code evaluated at the failing input): with `sC1a` already on the
target (matched to `tC1a` by pre-population) and `sC1b` newly found as `tC1b`,
`sync_tracks` hands the updater only the newly-searched id `[2]` — triggering
a full replace that drops the target's existing id 1 — whereas the full
cache-resolved deduplicated sequence over the source order is `[1, 2]`. -/
theorem claim_c1_code_bug :
    sync_tracks sessC1 [sC1a, sC1b] [tC1a] ⟨[], []⟩ =
      Except.ok (some (PlaylistAction.replace [2]), cC1final) ∧
    (get_tracks_for_new_tidal_playlist cC1final [sC1a, sC1b]).1 = [1, 2] ∧
    ([2] : List Int) ≠ [1, 2] ∧
    List.map (fun t => t.id) [tC1a] = [1] ∧ (1 : Int) ∉ ([2] : List Int) :=
  ⟨rfl, by decide, by decide, by decide, by decide⟩
